import Mathlib

/-!
Shallow embedding of `src/viser/_gui.py`: the GUI-handle state machine
(`_GuiHandleState`, `GuiHandle`, `GuiSelectHandle`) and its outbound
message protocol.

Modelling conventions:
* Python's mutable `_GuiHandleState` becomes an explicit state record
  `GuiHandleState`; each method returns an `Outcome` holding the new state,
  the list of messages queued (in queue order), the update-callback
  invocations performed (in order, paired with the stored value at the
  moment of the call), the cleanup-callback invocations, and an `ok` flag
  that is `false` when the Python method raises (failed `assert`,
  `KeyError`, `IndexError`, or iterating a 0-d array).  On a raise, the
  `Outcome` records the mutations and queued messages that happened before
  the raising statement, mirroring Python's lack of rollback.
* Callbacks are opaque: they are identified by natural numbers and the
  trace records their invocations; they themselves perform no mutation.
* `numpy` arrays are a shape plus flat rational data; `float` conversion
  is the identity on the rational carrier.  Timestamps (`time.time()`)
  are passed in explicitly as the `now` argument.
* `type(self._impl.value)(value)` — coercion of the (possibly
  array-normalized) input to the runtime type of the current value — is
  modelled by the per-state function `coerce`; the encoder
  (`self._impl.encoder`, applied to the normalized, pre-coercion value)
  by the per-state function `encoder`.
* `leva_conf` is a Python dict; the embedding keeps the keys the code
  touches (`disabled`, nested `settings.disabled`, `options`, `value`) as
  `Option`-valued fields (`none` = key absent) plus an opaque remainder.
  A queued `GuiSetLevaConfMessage` carries the configuration as it is at
  queue time.
-/

namespace Viser

/-- A numpy array at the API edge: its shape and flattened numeric data. -/
structure NdArray where
  shape : List Nat
  data : List ℚ
deriving DecidableEq, Repr

/-- The nested `settings` dict used by button-type leva configurations. -/
structure LevaSettings where
  disabled : Option Bool
  rest : List (String × String)
deriving DecidableEq, Repr

/-- The `leva_conf` dict of a GUI handle.  Fields the code manages are
explicit (`none` means the key is absent); everything else is the opaque
`rest`. -/
structure LevaConf (T : Type) where
  disabled : Option Bool
  settings : Option LevaSettings
  options : Option (List T)
  value : Option T
  rest : List (String × String)
deriving DecidableEq, Repr

/-- Outbound messages produced by the handle methods
(`GuiSetValueMessage`, `GuiSetLevaConfMessage`, `GuiSetHiddenMessage`,
`GuiRemoveMessage` in `_messages.py`). -/
inductive Message (T Enc : Type) where
  | guiSetValue (name : String) (encodedValue : Enc)
  | guiSetLevaConf (name : String) (conf : LevaConf T)
  | guiSetHidden (name : String) (hidden : Bool)
  | guiRemove (name : String)
deriving DecidableEq, Repr

/-- `_GuiHandleState`: the mutable record behind one GUI handle.
`update_cb` and `cleanup_cb`/`sync_cb` hold opaque callback identifiers;
`encoder` and `coerce` are the per-instance value translations (see the
module comment). -/
structure GuiHandleState (T Enc : Type) where
  name : String
  value : T
  last_updated : ℚ
  folder_labels : List String
  update_cb : List Nat
  leva_conf : LevaConf T
  is_button : Bool
  sync_cb : Option Nat
  cleanup_cb : Option Nat
  encoder : T ⊕ List ℚ → Enc
  decoder : Enc → T
  coerce : T ⊕ List ℚ → T

/-- Result of running one handle method: the state after the call, the
messages queued (in order), the update-callback invocations (callback id,
stored value at invocation time), the cleanup-callback invocations, and
whether the call returned normally (`ok = false` means it raised; the
recorded state and messages are those reached before the raise). -/
structure Outcome (T Enc : Type) where
  state : GuiHandleState T Enc
  msgs : List (Message T Enc)
  calls : List (Nat × T)
  cleanupCalls : List Nat
  ok : Bool

/-- Lines 103–105 of `set_value`: an `onp.ndarray` input is checked to be
at most 1-D (`assert len(value.shape) <= 1`) and materialized as
`tuple(map(float, value))`.  `none` = the statement raises: the assert
fires for rank ≥ 2, and iterating a 0-d array raises `TypeError`.
A non-array input passes through unchanged. -/
def normalize_value {T : Type} : T ⊕ NdArray → Option (T ⊕ List ℚ)
  | Sum.inl v => some (Sum.inl v)
  | Sum.inr a =>
    if a.shape.length ≤ 1 then
      if a.shape.length = 1 then some (Sum.inr a.data) else none
    else none

/-- `GuiHandle.get_value`. -/
def get_value {T Enc : Type} (s : GuiHandleState T Enc) : T :=
  s.value

/-- `GuiHandle.get_update_timestamp`. -/
def get_update_timestamp {T Enc : Type} (s : GuiHandleState T Enc) : ℚ :=
  s.last_updated

/-- `GuiHandle.on_update`: appends the callback to `update_cb`. -/
def on_update {T Enc : Type} (s : GuiHandleState T Enc) (func : Nat) :
    GuiHandleState T Enc :=
  { s with update_cb := s.update_cb ++ [func] }

/-- `GuiHandle.set_value` (lines 101–122): normalize the input (possibly
raising), queue a `GuiSetValueMessage` with the encoded normalized value
unless the control is a button, store the coerced value, stamp
`last_updated := now`, then invoke every update callback in registration
order with the new value visible. -/
def set_value {T Enc : Type} (s : GuiHandleState T Enc) (value : T ⊕ NdArray)
    (now : ℚ) : Outcome T Enc :=
  match normalize_value value with
  | none => ⟨s, [], [], [], false⟩
  | some v =>
    let msgs : List (Message T Enc) :=
      if s.is_button then [] else [Message.guiSetValue s.name (s.encoder v)]
    let newValue := s.coerce v
    ⟨{ s with value := newValue, last_updated := now },
      msgs,
      s.update_cb.map (fun cb => (cb, newValue)),
      [],
      true⟩

/-- `GuiHandle.set_disabled` (lines 124–137): buttons mutate the nested
`leva_conf["settings"]["disabled"]` (raising `KeyError` if `settings` is
absent, before anything is queued); other controls mutate the top-level
`leva_conf["disabled"]`.  Both queue one `GuiSetLevaConfMessage` with the
updated configuration. -/
def set_disabled {T Enc : Type} (s : GuiHandleState T Enc) (disabled : Bool) :
    Outcome T Enc :=
  if s.is_button then
    match s.leva_conf.settings with
    | none => ⟨s, [], [], [], false⟩
    | some st =>
      let conf := { s.leva_conf with settings := some { st with disabled := some disabled } }
      ⟨{ s with leva_conf := conf }, [Message.guiSetLevaConf s.name conf], [], [], true⟩
  else
    let conf := { s.leva_conf with disabled := some disabled }
    ⟨{ s with leva_conf := conf }, [Message.guiSetLevaConf s.name conf], [], [], true⟩

/-- `GuiHandle.set_hidden` (lines 139–142): queues one
`GuiSetHiddenMessage`; no state is mutated. -/
def set_hidden {T Enc : Type} (s : GuiHandleState T Enc) (hidden : Bool) :
    Outcome T Enc :=
  ⟨s, [Message.guiSetHidden s.name hidden], [], [], true⟩

/-- `GuiHandle.remove` (lines 144–148): queues `GuiRemoveMessage`, then
`assert self._impl.cleanup_cb is not None` (the outcome is a raise, with
the message already queued, when `cleanup_cb` is absent), then invokes the
cleanup callback. -/
def remove {T Enc : Type} (s : GuiHandleState T Enc) : Outcome T Enc :=
  match s.cleanup_cb with
  | none => ⟨s, [Message.guiRemove s.name], [], [], false⟩
  | some cb => ⟨s, [Message.guiRemove s.name], [], [cb], true⟩

/-- `GuiSelectHandle.set_options` (lines 156–175): store the new options
into `leva_conf["options"]`; if `leva_conf["value"]` is not among them
(raising `KeyError` if the key is absent), overwrite `leva_conf["value"]`
with `options[0]` (raising `IndexError` on an empty list) and remember
that a value overwrite is needed; queue one `GuiSetLevaConfMessage` with
the updated configuration; finally, if an overwrite was flagged, run the
full `set_value` protocol on `options[0]`. -/
def set_options {T Enc : Type} [DecidableEq T] (s : GuiHandleState T Enc)
    (options : List T) (now : ℚ) : Outcome T Enc :=
  let conf1 := { s.leva_conf with options := some options }
  match conf1.value with
  | none => ⟨{ s with leva_conf := conf1 }, [], [], [], false⟩
  | some v =>
    if v ∈ options then
      ⟨{ s with leva_conf := conf1 },
        [Message.guiSetLevaConf s.name conf1], [], [], true⟩
    else
      match options with
      | [] => ⟨{ s with leva_conf := conf1 }, [], [], [], false⟩
      | o0 :: _ =>
        let conf2 := { conf1 with value := some o0 }
        let s2 := { s with leva_conf := conf2 }
        let r := set_value s2 (Sum.inl o0) now
        ⟨r.state, Message.guiSetLevaConf s.name conf2 :: r.msgs,
          r.calls, r.cleanupCalls, r.ok⟩

/-! ### Concrete states used by witnesses and counterexamples -/

/-- Encoder for string-valued handles: pass the string through (a
normalized array never reaches a string control in practice). -/
def strEncoder : String ⊕ List ℚ → String
  | Sum.inl v => v
  | Sum.inr _ => ""

/-- `type(self._impl.value)(value)` for a string-valued handle: `str` of a
string is the same string. -/
def strCoerce : String ⊕ List ℚ → String
  | Sum.inl v => v
  | Sum.inr _ => ""

/-- Display configuration of a sample dropdown: options `a, b, c`, value
field `a`. -/
def dropdownConf : LevaConf String :=
  { disabled := none
    settings := none
    options := some ["a", "b", "c"]
    value := some "a"
    rest := [("label", "Dropdown")] }

/-- A sample dropdown handle state: stored value `"a"`, one registered
observer (id 0), cleanup callback wired (id 7). -/
def dropdownState : GuiHandleState String String :=
  { name := "dropdown"
    value := "a"
    last_updated := 0
    folder_labels := []
    update_cb := [0]
    leva_conf := dropdownConf
    is_button := false
    sync_cb := none
    cleanup_cb := some 7
    encoder := strEncoder
    decoder := fun e => e
    coerce := strCoerce }

/-- The dropdown after `set_value("b")` at time 1: the stored value is now
`"b"`, but `leva_conf["value"]` still reads `"a"` — the staleness that
makes the select membership test diverge from the stored value. -/
def staleDropdown : GuiHandleState String String :=
  (set_value dropdownState (Sum.inl "b") 1).state

/-- A sample button handle state (buttons carry a nested `settings`
dict). -/
def buttonState : GuiHandleState String String :=
  { name := "clickme"
    value := "unused"
    last_updated := 0
    folder_labels := []
    update_cb := [0, 1]
    leva_conf :=
      { disabled := none
        settings := some { disabled := none, rest := [] }
        options := none
        value := none
        rest := [] }
    is_button := true
    sync_cb := none
    cleanup_cb := some 9
    encoder := strEncoder
    decoder := fun e => e
    coerce := strCoerce }

/-- The sample dropdown with no cleanup callback wired. -/
def noCleanupState : GuiHandleState String String :=
  { dropdownState with cleanup_cb := none }

/-! ### Theorems -/

/-- C4: `set_value` never mutates the display configuration blob
`leva_conf` — in particular its `value` field is not updated — so the
configuration's value field can go stale relative to the stored value. -/
theorem set_value_preserves_leva_conf {T Enc : Type} (s : GuiHandleState T Enc)
    (value : T ⊕ NdArray) (now : ℚ) :
    (set_value s value now).state.leva_conf = s.leva_conf := by
  unfold set_value
  cases h : normalize_value value <;> rfl

/-- C5: for every accepted input — a value of the control's type, or a 1-D
numeric array, which normalization materializes as the ordered list of its
floats — `get_value` after `set_value` returns the normalized input
coerced to the control's value type, and `last_updated` is set to the
mutation time. -/
theorem get_value_after_set_value {T Enc : Type} (s : GuiHandleState T Enc)
    (value : T ⊕ NdArray) (now : ℚ) (nv : T ⊕ List ℚ)
    (h : normalize_value value = some nv) :
    get_value (set_value s value now).state = s.coerce nv ∧
    (set_value s value now).state.last_updated = now ∧
    (set_value s value now).ok = true := by
  unfold set_value get_value
  rw [h]
  exact ⟨rfl, rfl, rfl⟩

/-- Witness for C5: setting the 1-D array `[1, 2, 3]` on the sample
dropdown at time 2. -/
theorem get_value_after_set_value_witness :
    normalize_value (T := String) (Sum.inr ⟨[3], [1, 2, 3]⟩) =
      some (Sum.inr [1, 2, 3]) ∧
    get_value (set_value dropdownState (Sum.inr ⟨[3], [1, 2, 3]⟩) 2).state =
      dropdownState.coerce (Sum.inr [1, 2, 3]) ∧
    (set_value dropdownState (Sum.inr ⟨[3], [1, 2, 3]⟩) 2).state.last_updated = 2 ∧
    (set_value dropdownState (Sum.inr ⟨[3], [1, 2, 3]⟩) 2).ok = true :=
  ⟨rfl, get_value_after_set_value dropdownState _ 2 _ rfl⟩

/-- C6: on a button control, `set_value` queues no message, yet the stored
value and `last_updated` are still updated and every registered observer
is still invoked, in registration order, with the new value. -/
theorem set_value_button_no_message {T Enc : Type} (s : GuiHandleState T Enc)
    (value : T ⊕ NdArray) (now : ℚ) (nv : T ⊕ List ℚ)
    (hb : s.is_button = true) (h : normalize_value value = some nv) :
    (set_value s value now).msgs = [] ∧
    (set_value s value now).state.value = s.coerce nv ∧
    (set_value s value now).state.last_updated = now ∧
    (set_value s value now).calls = s.update_cb.map (fun cb => (cb, s.coerce nv)) := by
  unfold set_value
  rw [h]
  simp [hb]

/-- Witness for C6: pressing the sample button at time 3. -/
theorem set_value_button_no_message_witness :
    buttonState.is_button = true ∧
    normalize_value (T := String) (Sum.inl "pressed") = some (Sum.inl "pressed") ∧
    (set_value buttonState (Sum.inl "pressed") 3).msgs = [] ∧
    (set_value buttonState (Sum.inl "pressed") 3).state.value =
      buttonState.coerce (Sum.inl "pressed") ∧
    (set_value buttonState (Sum.inl "pressed") 3).state.last_updated = 3 ∧
    (set_value buttonState (Sum.inl "pressed") 3).calls =
      buttonState.update_cb.map (fun cb => (cb, buttonState.coerce (Sum.inl "pressed"))) :=
  ⟨rfl, rfl, set_value_button_no_message buttonState _ 3 _ rfl rfl⟩

/-- C7: `set_value` with an array of rank ≥ 2 fails immediately: the
assert raises before any state mutation, any queued message, or any
observer invocation. -/
theorem set_value_rank2_rejected {T Enc : Type} (s : GuiHandleState T Enc)
    (a : NdArray) (now : ℚ) (h : 2 ≤ a.shape.length) :
    set_value s (Sum.inr a) now = ⟨s, [], [], [], false⟩ := by
  unfold set_value normalize_value
  have h1 : ¬ a.shape.length ≤ 1 := by omega
  simp [h1]

/-- Witness for C7: a 2×2 array is rejected with no effect. -/
theorem set_value_rank2_rejected_witness :
    2 ≤ (NdArray.mk [2, 2] [1, 2, 3, 4]).shape.length ∧
    set_value dropdownState (Sum.inr ⟨[2, 2], [1, 2, 3, 4]⟩) 3 =
      ⟨dropdownState, [], [], [], false⟩ :=
  ⟨by decide, set_value_rank2_rejected dropdownState ⟨[2, 2], [1, 2, 3, 4]⟩ 3 (by decide)⟩

/-- C8: when the cleanup callback is present, `remove` queues exactly one
`GuiRemoveMessage` and invokes the cleanup callback exactly once; when it
is absent, `remove` fails (the assert raises) and no cleanup runs. -/
theorem remove_behavior {T Enc : Type} (s : GuiHandleState T Enc) :
    (∀ cb, s.cleanup_cb = some cb →
      remove s = ⟨s, [Message.guiRemove s.name], [], [cb], true⟩) ∧
    (s.cleanup_cb = none →
      (remove s).ok = false ∧ (remove s).cleanupCalls = []) := by
  constructor
  · intro cb hcb
    unfold remove
    rw [hcb]
  · intro hnone
    unfold remove
    rw [hnone]
    exact ⟨rfl, rfl⟩

/-- Witness for C8: removing the sample dropdown (cleanup id 7) succeeds
with one Remove message and one cleanup invocation; removing the variant
with no cleanup wired fails with no cleanup invocation. -/
theorem remove_behavior_witness :
    remove dropdownState =
      ⟨dropdownState, [Message.guiRemove "dropdown"], [], [7], true⟩ ∧
    (remove noCleanupState).ok = false ∧
    (remove noCleanupState).cleanupCalls = [] :=
  ⟨(remove_behavior dropdownState).1 7 rfl, (remove_behavior noCleanupState).2 rfl⟩

/-- C10: when `remove` is called with the cleanup callback absent, the
`GuiRemoveMessage` is already queued before the assert raises — the
failing `remove` is not atomic with respect to outbound messages. -/
theorem remove_queues_before_failure {T Enc : Type} (s : GuiHandleState T Enc)
    (h : s.cleanup_cb = none) :
    remove s = ⟨s, [Message.guiRemove s.name], [], [], false⟩ := by
  unfold remove
  rw [h]

/-- Witness for C10: the no-cleanup dropdown still gets its Remove message
queued by the failing call. -/
theorem remove_queues_before_failure_witness :
    noCleanupState.cleanup_cb = none ∧
    remove noCleanupState =
      ⟨noCleanupState, [Message.guiRemove "dropdown"], [], [], false⟩ :=
  ⟨rfl, remove_queues_before_failure noCleanupState rfl⟩

/-- C9: on a non-button control, `set_disabled true` then
`set_disabled false` leaves the top-level `disabled` field equal to
`false` and queues exactly one `GuiSetLevaConfMessage` per call; on a
button control, `set_disabled` instead sets the nested
`settings.disabled` field, leaving the top-level field untouched. -/
theorem set_disabled_behavior {T Enc : Type} (s : GuiHandleState T Enc) :
    (s.is_button = false →
      (set_disabled (set_disabled s true).state false).state.leva_conf.disabled =
        some false ∧
      (set_disabled s true).msgs =
        [Message.guiSetLevaConf s.name { s.leva_conf with disabled := some true }] ∧
      (set_disabled (set_disabled s true).state false).msgs =
        [Message.guiSetLevaConf s.name { s.leva_conf with disabled := some false }]) ∧
    (∀ st d, s.is_button = true → s.leva_conf.settings = some st →
      (set_disabled s d).state.leva_conf.settings =
        some { st with disabled := some d } ∧
      (set_disabled s d).state.leva_conf.disabled = s.leva_conf.disabled ∧
      (set_disabled s d).msgs.length = 1) := by
  constructor
  · intro hb
    unfold set_disabled
    simp [hb]
  · intro st d hb hst
    unfold set_disabled
    simp [hb, hst]

/-- Witness for C9: toggling disabled on the sample dropdown and on the
sample button. -/
theorem set_disabled_behavior_witness :
    ((set_disabled (set_disabled dropdownState true).state false).state.leva_conf.disabled =
        some false ∧
      (set_disabled dropdownState true).msgs =
        [Message.guiSetLevaConf "dropdown" { dropdownConf with disabled := some true }] ∧
      (set_disabled (set_disabled dropdownState true).state false).msgs =
        [Message.guiSetLevaConf "dropdown" { dropdownConf with disabled := some false }]) ∧
    ((set_disabled buttonState true).state.leva_conf.settings =
        some { disabled := some true, rest := [] } ∧
      (set_disabled buttonState true).state.leva_conf.disabled =
        buttonState.leva_conf.disabled ∧
      (set_disabled buttonState true).msgs.length = 1) :=
  ⟨(set_disabled_behavior dropdownState).1 rfl,
   (set_disabled_behavior buttonState).2 { disabled := none, rest := [] } true rfl rfl⟩

/-- Counterexample to C1 as stated: C1's precondition is phrased over the
*stored* value, but `set_options` tests `leva_conf["value"]`.  In the
reachable state `staleDropdown` (stored value `"b"` after `set_value`,
configuration value field still `"a"`), calling `set_options ["a", "c"]`
has the stored value outside the new options, yet no repair happens: only
the `GuiSetLevaConfMessage` is queued, no `GuiSetValueMessage`, no
observer fires, and the stored value stays `"b"` rather than becoming
`opts[0] = "a"`. -/
theorem set_options_repair_counterexample :
    staleDropdown.value = "b" ∧
    "b" ∉ (["a", "c"] : List String) ∧
    (set_options staleDropdown ["a", "c"] 2).msgs =
      [Message.guiSetLevaConf "dropdown"
        { dropdownConf with options := some ["a", "c"] }] ∧
    (set_options staleDropdown ["a", "c"] 2).calls = [] ∧
    (set_options staleDropdown ["a", "c"] 2).state.value = "b" :=
  ⟨rfl, by decide, by decide, by decide, rfl⟩

/-- C1 (amended): when `set_options` is called on a non-button select
whose *configuration* `value` field (`leva_conf["value"]`, which is what
the code's membership test reads) is not among the new options, it queues
exactly one `GuiSetLevaConfMessage` followed by exactly one
`GuiSetValueMessage` carrying the encoding of `options[0]`, the stored
value becomes `options[0]` (the hypothesis `hc` records that coercion to
the control's string type preserves it), and every registered observer
fires exactly once with the repaired value. -/
theorem set_options_repair {T Enc : Type} [DecidableEq T]
    (s : GuiHandleState T Enc) (o0 : T) (os : List T) (now : ℚ) (v : T)
    (hv : s.leva_conf.value = some v) (hnot : v ∉ o0 :: os)
    (hb : s.is_button = false) (hc : s.coerce (Sum.inl o0) = o0) :
    set_options s (o0 :: os) now =
      ⟨{ s with
          leva_conf := { s.leva_conf with options := some (o0 :: os), value := some o0 },
          value := o0,
          last_updated := now },
        [Message.guiSetLevaConf s.name
          { s.leva_conf with options := some (o0 :: os), value := some o0 },
         Message.guiSetValue s.name (s.encoder (Sum.inl o0))],
        s.update_cb.map (fun cb => (cb, o0)),
        [], true⟩ := by
  unfold set_options set_value normalize_value
  simp [hv, hnot, hb, hc]

/-- Witness for C1 (amended): replacing the sample dropdown's options by
`["x", "y"]` repairs the value to `"x"`. -/
theorem set_options_repair_witness :
    dropdownState.leva_conf.value = some "a" ∧
    "a" ∉ (["x", "y"] : List String) ∧
    set_options dropdownState ["x", "y"] 5 =
      ⟨{ dropdownState with
          leva_conf := { dropdownConf with options := some ["x", "y"], value := some "x" },
          value := "x",
          last_updated := 5 },
        [Message.guiSetLevaConf "dropdown"
          { dropdownConf with options := some ["x", "y"], value := some "x" },
         Message.guiSetValue "dropdown" (dropdownState.encoder (Sum.inl "x"))],
        [(0, "x")],
        [], true⟩ :=
  ⟨rfl, by decide, set_options_repair dropdownState "x" ["y"] 5 "a" rfl (by decide) rfl rfl⟩

/-- Counterexample to C2 as stated: in the reachable state
`staleDropdown` (stored value `"b"`, configuration value field `"a"`),
calling `set_options ["b", "c"]` has the stored value inside the new
options, yet the code's membership test on `leva_conf["value"] = "a"`
fails, so a repair runs anyway: a `GuiSetValueMessage` is queued after the
config message, the observer fires, and `last_updated` changes. -/
theorem set_options_no_repair_counterexample :
    staleDropdown.value = "b" ∧
    "b" ∈ (["b", "c"] : List String) ∧
    (set_options staleDropdown ["b", "c"] 2).msgs =
      [Message.guiSetLevaConf "dropdown"
        { dropdownConf with options := some ["b", "c"], value := some "b" },
       Message.guiSetValue "dropdown" "b"] ∧
    (set_options staleDropdown ["b", "c"] 2).calls = [(0, "b")] ∧
    (set_options staleDropdown ["b", "c"] 2).state.last_updated = 2 :=
  ⟨rfl, by decide, by decide, by decide, rfl⟩

/-- C2 (amended): when `set_options` is called on a select whose
*configuration* `value` field (`leva_conf["value"]`, which is what the
code's membership test reads) is among the new options, it queues exactly
one `GuiSetLevaConfMessage`, zero `GuiSetValueMessage`s, invokes zero
observers, and leaves the stored value and `last_updated` unchanged. -/
theorem set_options_no_repair {T Enc : Type} [DecidableEq T]
    (s : GuiHandleState T Enc) (options : List T) (now : ℚ) (v : T)
    (hv : s.leva_conf.value = some v) (hmem : v ∈ options) :
    set_options s options now =
      ⟨{ s with leva_conf := { s.leva_conf with options := some options } },
        [Message.guiSetLevaConf s.name { s.leva_conf with options := some options }],
        [], [], true⟩ := by
  unfold set_options
  simp [hv, hmem]

/-- Witness for C2 (amended): replacing the sample dropdown's options by
`["a", "z"]` (its configuration value `"a"` is a member) queues only the
config message. -/
theorem set_options_no_repair_witness :
    dropdownState.leva_conf.value = some "a" ∧
    "a" ∈ (["a", "z"] : List String) ∧
    set_options dropdownState ["a", "z"] 5 =
      ⟨{ dropdownState with
          leva_conf := { dropdownConf with options := some ["a", "z"] } },
        [Message.guiSetLevaConf "dropdown"
          { dropdownConf with options := some ["a", "z"] }],
        [], [], true⟩ :=
  ⟨rfl, by decide, set_options_no_repair dropdownState ["a", "z"] 5 "a" rfl (by decide)⟩

/-- Counterexample to C3 as stated: `set_options` writes the repaired
value into `leva_conf["value"]` *before* queueing, so the queued
`GuiSetLevaConfMessage` carries the repaired value, not the stale one.  On
the sample dropdown (configuration value `"a"`), `set_options ["x", "y"]`
queues a config message whose value field is `"x"` — and `"x" ≠ "a"`. -/
theorem set_options_stale_config_counterexample :
    dropdownState.leva_conf.value = some "a" ∧
    (set_options dropdownState ["x", "y"] 2).msgs.head? =
      some (Message.guiSetLevaConf "dropdown"
        { dropdownConf with options := some ["x", "y"], value := some "x" }) ∧
    ("x" : String) ≠ "a" :=
  ⟨rfl, by decide, by decide⟩

/-- C3 (amended): when `set_options` performs a value repair, the repaired
value is written into the configuration before queueing, so the
`GuiSetLevaConfMessage` it queues carries the *repaired* value field; the
corrected value is then also sent in the subsequent
`GuiSetValueMessage`. -/
theorem set_options_config_carries_repaired {T Enc : Type} [DecidableEq T]
    (s : GuiHandleState T Enc) (o0 : T) (os : List T) (now : ℚ) (v : T)
    (hv : s.leva_conf.value = some v) (hnot : v ∉ o0 :: os)
    (hb : s.is_button = false) :
    (set_options s (o0 :: os) now).msgs =
      [Message.guiSetLevaConf s.name
        { s.leva_conf with options := some (o0 :: os), value := some o0 },
       Message.guiSetValue s.name (s.encoder (Sum.inl o0))] := by
  unfold set_options set_value normalize_value
  simp [hv, hnot, hb]

/-- Witness for C3 (amended): the repair run on the sample dropdown queues
the config message with the repaired value `"x"` followed by the value
message. -/
theorem set_options_config_carries_repaired_witness :
    dropdownState.leva_conf.value = some "a" ∧
    "a" ∉ (["x", "y"] : List String) ∧
    (set_options dropdownState ["x", "y"] 2).msgs =
      [Message.guiSetLevaConf "dropdown"
        { dropdownConf with options := some ["x", "y"], value := some "x" },
       Message.guiSetValue "dropdown" (dropdownState.encoder (Sum.inl "x"))] :=
  ⟨rfl, by decide,
   set_options_config_carries_repaired dropdownState "x" ["y"] 2 "a" rfl (by decide) rfl⟩

end Viser
